import Mathlib

/-!
# Verification of the q2-skani adapter (`q2_skani/skani.py`)

Shallow embedding of the four components of the adapter:

* `_construct_triangle_cmd` — command builder (skani.py lines 22–83);
* `_run_skani` — process runner error translation (skani.py lines 86–115);
* `_process_skani_matrix` — matrix parsing (skani.py lines 118–140), including a
  model of the `pandas.read_csv` call it delegates to, as configured there
  (`sep="\t"`, `index_col=0`, `skiprows=1`, `header=None`);
* `compare_seqs` — orchestrator (skani.py lines 143–242), including a model of
  the `skbio.DistanceMatrix` constructor's validation.

Python dictionaries of heterogeneous values are embedded as partial maps to
`PyVal`, which records the two observations the code makes of a value: its
`str()` form and its truthiness.  Files are embedded at field granularity: a
tab-separated file is a list of lines, each line the list of its tab-separated
fields.  Floating-point cell values are modelled as exact rationals (the code
performs no arithmetic on them, only parsing and equality comparison).
-/

set_option autoImplicit false

deriving instance DecidableEq for Except

namespace Q2Skani

/-- A Python value as observed by the command builder: `pyStr` is `str(v)` and
`truthy` is `bool(v)`. The builder makes no other observation of a value. -/
structure PyVal where
  pyStr : String
  truthy : Bool
deriving DecidableEq, Repr

/-- Decimal digit character. -/
def digitChar : Nat → Char
  | 0 => '0' | 1 => '1' | 2 => '2' | 3 => '3' | 4 => '4'
  | 5 => '5' | 6 => '6' | 7 => '7' | 8 => '8' | 9 => '9'
  | _ => '*'

/-- Decimal digits of `n`, most significant first; `fuel` bounds recursion
depth (structural, so concrete values reduce in the kernel). -/
def natDigits (fuel n : Nat) : List Char :=
  match fuel with
  | 0 => []
  | fuel + 1 =>
    if n < 10 then [digitChar n]
    else natDigits fuel (n / 10) ++ [digitChar (n % 10)]

/-- Python `str()` of a natural number. -/
def natToStr (n : Nat) : String := String.mk (natDigits (n + 1) n)

/-- Python `str()` of an integer. -/
def intToStr : Int → String
  | .ofNat n => natToStr n
  | .negSucc n => "-" ++ natToStr (n + 1)

/-- The Python int `n` as a `PyVal` (`str(n)`; truthy iff nonzero). -/
def pyInt (n : Int) : PyVal := ⟨intToStr n, decide (n ≠ 0)⟩

/-- The Python bool `b` as a `PyVal`. -/
def pyBool (b : Bool) : PyVal := ⟨if b then "True" else "False", b⟩

/-- Python `None` as a `PyVal` (`str(None) = "None"`; falsy). -/
def pyNone : PyVal := ⟨"None", false⟩

/-- A Python str `s` as a `PyVal` (truthy iff non-empty). -/
def pyStrVal (s : String) : PyVal := ⟨s, decide (s ≠ "")⟩

/-- A Python float as a `PyVal`, given by its `str()` representation.  The
builder only ever calls `str()` on value-bearing parameters, so the numeric
value itself need not be modelled; the default floats of `compare_seqs`
(15.0, 80.0) are nonzero, hence truthy. -/
def pyFloat (s : String) : PyVal := ⟨s, true⟩

/-- A Python `Dict[str, Any]` as seen by the command builder: a partial map
from keys to values.  `none` models the key being absent from the dict. -/
abbrev SkaniArgs := String → Option PyVal

/-- skani.py lines 49–55: the `param_with_values` dict literal, in declaration
order (Python dicts iterate in insertion order). -/
def param_with_values : List (String × String) :=
  [("threads", "-t"),
   ("min_af", "--min-af"),
   ("compression", "-c"),
   ("marker_c", "-m"),
   ("screen", "-s")]

/-- skani.py lines 57–67: the `boolean_flags` dict literal, in declaration
order. -/
def boolean_flags : List (String × String) :=
  [("ci", "--ci"),
   ("detailed", "--detailed"),
   ("diagonal", "--diagonal"),
   ("sparse", "--sparse"),
   ("full_matrix", "--full-matrix"),
   ("median", "--median"),
   ("no_learned_ani", "--no-learned-ani"),
   ("robust", "--robust"),
   ("faster_small", "--faster-small")]

/-- skani.py lines 70–72: the loop `for param, flag in param_with_values.items():
if param in skani_args: cmd.extend([flag, str(skani_args[param])])`, run from an
accumulator. -/
def valueParamTokens (skani_args : SkaniArgs) : List String :=
  param_with_values.foldl
    (fun cmd pf =>
      match skani_args pf.1 with
      | some v => cmd ++ [pf.2, v.pyStr]
      | none => cmd)
    []

/-- skani.py lines 75–77: the loop `for param, flag in boolean_flags.items():
if param in skani_args and skani_args[param]: cmd.append(flag)`, run from an
accumulator. -/
def boolFlagTokens (skani_args : SkaniArgs) : List String :=
  boolean_flags.foldl
    (fun cmd pf =>
      match skani_args pf.1 with
      | some v => if v.truthy then cmd ++ [pf.2] else cmd
      | none => cmd)
    []

/-- skani.py lines 80–81: `if "preset" in skani_args and skani_args["preset"]:
cmd.append(f"--{skani_args['preset']}")`. -/
def presetTokens (skani_args : SkaniArgs) : List String :=
  match skani_args "preset" with
  | some v => if v.truthy then ["--" ++ v.pyStr] else []
  | none => []

/-- skani.py lines 22–83, `_construct_triangle_cmd`: fixed head
`["skani", "triangle", "-v", "--distance"]`, then `-l fasta_list -o output_file`,
then the three parameter loops in source order. -/
def _construct_triangle_cmd (fasta_list : String) (output_file : String)
    (skani_args : SkaniArgs) : List String :=
  ["skani", "triangle", "-v", "--distance"]
    ++ ["-l", fasta_list, "-o", output_file]
    ++ valueParamTokens skani_args
    ++ boolFlagTokens skani_args
    ++ presetTokens skani_args

/-- The tokens a single value-bearing option contributes: flag and stringified
value when the key is present, nothing when absent. -/
def valueTokensFor (skani_args : SkaniArgs) (pf : String × String) : List String :=
  match skani_args pf.1 with
  | some v => [pf.2, v.pyStr]
  | none => []

/-- Whether a boolean option is present in the dict and truthy. -/
def flagOn (skani_args : SkaniArgs) (key : String) : Bool :=
  match skani_args key with
  | some v => v.truthy
  | none => false

/-- The token a single boolean flag contributes: the bare flag when present and
truthy, nothing otherwise. -/
def boolTokensFor (skani_args : SkaniArgs) (pf : String × String) : List String :=
  if flagOn skani_args pf.1 then [pf.2] else []

/-! ## Numeric tokens and missing-value markers

`pandas.read_csv` converts a column to floats when every non-missing token of
the column is a numeric literal; tokens in pandas' default `na_values` list
become NaN.  Numeric values are modelled as exact rationals built through
`mkRat` (the code performs no arithmetic on parsed values, only equality
comparisons inside the `skbio` constructor, so exact rationals are a faithful
model of the float values appearing in the claims). -/

/-- pandas' default `na_values` markers. -/
def NA_TOKENS : List String :=
  ["", "#N/A", "#N/A N/A", "#NA", "-1.#IND", "-1.#QNAN", "-NaN", "-nan",
   "1.#IND", "1.#QNAN", "<NA>", "N/A", "NA", "NULL", "NaN", "None",
   "n/a", "nan", "null"]

/-- Whether a field is one of pandas' missing-value markers. -/
def isNAToken (s : String) : Bool := NA_TOKENS.contains s

/-- Value of a digit string (most significant first). -/
def digitsVal (cs : List Char) : Nat :=
  cs.foldl (fun n c => n * 10 + (c.toNat - 48)) 0

/-- Exponent part of a numeric literal: optional sign, then one or more
digits. -/
def parseExpPart (cs : List Char) : Option Int :=
  match cs with
  | '+' :: rest =>
      if rest ≠ [] ∧ rest.all Char.isDigit then some (digitsVal rest) else none
  | '-' :: rest =>
      if rest ≠ [] ∧ rest.all Char.isDigit then some (-(digitsVal rest : Int)) else none
  | rest =>
      if rest ≠ [] ∧ rest.all Char.isDigit then some (digitsVal rest) else none

/-- Unsigned decimal literal `digits [. digits] [(e|E) exponent]`, returned as
mantissa and power-of-ten exponent.  At least one digit must be present. -/
def parseMantissa (cs : List Char) : Option (Nat × Int) :=
  let intPart := cs.takeWhile Char.isDigit
  let rest := cs.drop intPart.length
  match rest with
  | [] => if intPart = [] then none else some (digitsVal intPart, 0)
  | '.' :: rest2 =>
    let frac := rest2.takeWhile Char.isDigit
    let rest3 := rest2.drop frac.length
    if intPart = [] ∧ frac = [] then none
    else
      let m := digitsVal (intPart ++ frac)
      let e : Int := -(frac.length : Int)
      match rest3 with
      | [] => some (m, e)
      | c :: rest4 =>
        if c = 'e' ∨ c = 'E' then (parseExpPart rest4).map (fun k => (m, e + k))
        else none
  | c :: rest4 =>
    if (c = 'e' ∨ c = 'E') ∧ intPart ≠ [] then
      (parseExpPart rest4).map (fun k => (digitsVal intPart, k))
    else none

/-- The rational `m * 10 ^ e`, built through integer arithmetic and a single
`mkRat` so that concrete values reduce in the kernel. -/
def decVal (m : Int) (e : Int) : ℚ :=
  if 0 ≤ e then mkRat (m * (10 : Int) ^ e.toNat) 1
  else mkRat m ((10 : Nat) ^ (-e).toNat)

/-- Numeric literal recognizer and evaluator: optional sign, then an unsigned
decimal with optional fraction and exponent.  Models which fields pandas
converts to floats (and their values). -/
def parseNumToken (s : String) : Option ℚ :=
  match s.data with
  | '+' :: rest => (parseMantissa rest).map fun p => decVal p.1 p.2
  | '-' :: rest => (parseMantissa rest).map fun p => decVal (-(p.1 : Int)) p.2
  | rest => (parseMantissa rest).map fun p => decVal p.1 p.2

/-! ## The pandas `read_csv` model

The call at skani.py line 132 is
`pd.read_csv(matrix_file, sep="\t", index_col=0, skiprows=1, header=None)`.
A tab-separated file is embedded at field granularity: one list of fields per
line (`TsvFile`).  The model captures the C-parser behavior relevant to the
claims:

* `skiprows=1` drops the first line; blank lines are skipped
  (`skip_blank_lines=True` default); no remaining line is `EmptyDataError`;
* the expected field count is that of the first remaining line; a line with
  more fields raises the tokenizing `ParserError`
  ("Expected N fields ..., saw M"); a line with fewer fields is padded with
  missing values;
* `index_col=0` takes the first field of each line as the row label; the
  index is modelled as the raw field strings, which is faithful whenever the
  leading fields are neither numeric nor missing-value markers (as genome
  paths are);
* a column all of whose non-missing fields are numeric literals becomes a
  float column (`Cell.num`/`Cell.nan`); any other column keeps its fields as
  Python strings (`Cell.obj`, with markers still becoming `Cell.nan`);
* `header=None` leaves the default positional column labels. -/

/-- A tab-separated file: one entry per line, each the list of the line's
tab-separated fields. -/
abbrev TsvFile := List (List String)

/-- A parsed cell: a float value, a missing value, or a string kept verbatim
in a non-numeric column. -/
inductive Cell
  | num (q : ℚ)
  | nan
  | obj (s : String)
deriving DecidableEq, Repr

/-- Failures of the `read_csv` call: the tokenizer's "Expected `expected`
fields, saw `saw`" `ParserError`, and `EmptyDataError` for a file with no data
lines. -/
inductive PdErr
  | tokenizing (expected : Nat) (saw : Nat)
  | emptyData
deriving DecidableEq, Repr

/-- A pandas `DataFrame` as used by this code: row labels, column labels, and
the cell matrix. -/
structure DataFrame where
  index : List String
  columns : List String
  values : List (List Cell)
deriving DecidableEq, Repr

/-- How a single field parses, given whether its whole column is numeric. -/
def tokenCell (colIsNumeric : Bool) (s : String) : Cell :=
  if isNAToken s then .nan
  else if colIsNumeric then
    match parseNumToken s with
    | some q => .num q
    | none => .obj s
  else .obj s

/-- Whether value column `j` is numeric: every field is a missing-value marker
or a numeric literal. -/
def colNumeric (vals : List (List String)) (j : Nat) : Bool :=
  vals.all fun row => isNAToken (row.getD j "") || (parseNumToken (row.getD j "")).isSome

/-- Tokenized parse of the non-skipped, non-blank lines: the first line fixes
the expected field count; longer lines raise, shorter lines are padded with
missing values; then `index_col=0` splits labels from value fields and column
dtypes are inferred. -/
def read_csv_rows : List (List String) → Except PdErr DataFrame
  | [] => .error .emptyData
  | first :: rest =>
    let rows := first :: rest
    let expected := first.length
    match rows.find? (fun r => decide (expected < r.length)) with
    | some bad => .error (.tokenizing expected bad.length)
    | none =>
      let padded := rows.map (fun r => r ++ List.replicate (expected - r.length) "")
      let vals := padded.map List.tail
      let ncols := expected - 1
      .ok { index := padded.map (fun r => r.headD "")
            columns := (List.range ncols).map natToStr
            values := vals.map (fun row =>
              (List.range ncols).map (fun j => tokenCell (colNumeric vals j) (row.getD j ""))) }

/-- Model of `pd.read_csv(file, sep="\t", index_col=0, skiprows=1,
header=None)`: skip the first line and blank lines, then parse. -/
def read_csv (file : TsvFile) : Except PdErr DataFrame :=
  read_csv_rows ((file.drop 1).filter (fun r => r ≠ [""]))

/-! ## `pathlib.Path(...).stem` -/

/-- Index of the last `'.'` in a character list, if any. -/
def lastDotIdx (cs : List Char) : Option Nat :=
  match cs.reverse.findIdx? (· = '.') with
  | some j => some (cs.length - 1 - j)
  | none => none

/-- Split a character list at every occurrence of `c` (the pieces do not
contain `c`; `n` separators yield `n + 1` pieces). -/
def splitOnChar (c : Char) : List Char → List (List Char)
  | [] => [[]]
  | x :: xs =>
    let r := splitOnChar c xs
    if x = c then [] :: r
    else
      match r with
      | [] => [[x]]
      | y :: ys => (x :: y) :: ys

/-- `pathlib.Path(s).name`: the last non-empty slash-separated component. -/
def pathName (s : String) : String :=
  String.mk (((splitOnChar '/' s.data).filter (fun p => p ≠ [])).getLastD [])

/-- `pathlib.Path(s).stem`: the name with its last suffix dropped; the suffix
starts at the last dot provided that dot is neither the first nor the last
character of the name. -/
def pathStem (s : String) : String :=
  let name := pathName s
  let cs := name.data
  match lastDotIdx cs with
  | some i => if 0 < i ∧ i + 1 < cs.length then String.mk (cs.take i) else name
  | none => name

/-- Failures of `_process_skani_matrix`: a propagated pandas failure, or the
`ValueError` ("Length mismatch") pandas raises when `df.columns = ...` assigns
a label list whose length differs from the number of value columns. -/
inductive MatrixErr
  | pandas (e : PdErr)
  | lengthMismatch (ncols : Nat) (nlabels : Nat)
deriving DecidableEq, Repr

/-- skani.py lines 118–140, `_process_skani_matrix`: read the file, map the
index through `Path(x).stem`, then assign the index as the column labels
(which raises `ValueError` on a length mismatch). -/
def _process_skani_matrix (file : TsvFile) : Except MatrixErr DataFrame :=
  match read_csv file with
  | .error e => .error (.pandas e)
  | .ok df =>
    let stems := df.index.map pathStem
    if df.columns.length = stems.length then
      .ok { index := stems, columns := stems, values := df.values }
    else
      .error (.lengthMismatch df.columns.length stems.length)

/-! ## Process runner (`_run_skani`, skani.py lines 86–115)

`subprocess.run(cmd, check=True, capture_output=True, text=True)` is modelled
by an `ExtResult` describing the child process's behavior on this invocation:
its exit code, captured text streams, and the content it wrote to the `-o`
output file.  `check=True` raises `CalledProcessError` exactly on a non-zero
exit code. -/

/-- Behavior of the external `skani` process on one invocation. -/
structure ExtResult where
  exitCode : Int
  stdout : String
  stderr : String
  outputLines : TsvFile
deriving DecidableEq, Repr

/-- Python `sep.join(parts)`. -/
def joinWith (sep : String) : List String → String
  | [] => ""
  | [x] => x
  | x :: y :: xs => x ++ sep ++ joinWith sep (y :: xs)

/-- skani.py lines 107–114: the `RuntimeError` message built from a
`CalledProcessError` — exit code and joined command always, then the captured
streams under `stdout:`/`stderr:` headers when non-empty. -/
def skaniFailMsg (cmd : List String) (res : ExtResult) : String :=
  "Skani failed with exit code " ++ intToStr res.exitCode ++ ".\n"
    ++ "Command: " ++ joinWith " " cmd ++ "\n"
    ++ (if res.stdout ≠ "" then "stdout:\n" ++ res.stdout ++ "\n" else "")
    ++ (if res.stderr ≠ "" then "stderr:\n" ++ res.stderr else "")

/-- skani.py lines 86–115, `_run_skani`: returns normally on exit code zero,
otherwise raises `RuntimeError` with `skaniFailMsg`. -/
def _run_skani (cmd : List String) (res : ExtResult) : Except String Unit :=
  if res.exitCode = 0 then .ok () else .error (skaniFailMsg cmd res)

/-- skani.py lines 234–238: `compare_seqs` wraps any failure of `_run_skani`
in a `RuntimeError` carrying the original message (`str(e)`) and the joined
command. -/
def wrapRunMsg (cmd : List String) (orig : String) : String :=
  "Failed to run Skani comparison: " ++ orig ++ "\n"
    ++ "Command: " ++ joinWith " " cmd

/-! ## The `skbio.DistanceMatrix` constructor

skani.py line 242 calls `skbio.DistanceMatrix(df.values, ids=...)`.  The
constructor converts the data to a float array (`ValueError` when a string
cell is not float-parsable), then validates: two-dimensional square data of
matching id count, at least 1x1, unique ids, elementwise-equal to its
transpose ("Data must be symmetric and cannot contain NaNs." — NaN compares
unequal to itself, so any NaN entry fails this check), and zero trace ("Data
must be hollow ...").  Float values are modelled as exact rationals plus a NaN
sentinel. -/

/-- A float value: a (rational-modelled) number or NaN. -/
inductive FVal
  | num (q : ℚ)
  | nan
deriving DecidableEq, Repr

/-- `float()` conversion of one parsed cell. -/
def cellToFloat : Cell → Option FVal
  | .num q => some (.num q)
  | .nan => some .nan
  | .obj s => (parseNumToken s).map FVal.num

/-- `float()` conversion of the whole cell matrix. -/
def cellsToFloats (rows : List (List Cell)) : Option (List (List FVal)) :=
  rows.mapM (fun row => row.mapM cellToFloat)

/-- numpy `==` on float values: NaN is unequal to everything, itself
included. -/
def fvalEq : FVal → FVal → Bool
  | .num a, .num b => a == b
  | _, _ => false

/-- Entry `(i, j)` of a float matrix. -/
def matGet (m : List (List FVal)) (i j : Nat) : FVal := (m.getD i []).getD j .nan

/-- `(mat == mat.T).all()` over an `n × n` matrix. -/
def isSymmetricB (m : List (List FVal)) (n : Nat) : Bool :=
  (List.range n).all fun i => (List.range n).all fun j =>
    fvalEq (matGet m i j) (matGet m j i)

/-- Rational addition routed through `mkRat` so concrete sums reduce in the
kernel; equal to ordinary addition of rationals. -/
def qAdd (a b : ℚ) : ℚ := mkRat (a.num * b.den + b.num * a.den) (a.den * b.den)

/-- `np.trace(mat) == 0`: the diagonal sum is NaN-free and equals zero. -/
def traceIsZero (m : List (List FVal)) (n : Nat) : Bool :=
  match (List.range n).foldl
      (fun acc i =>
        match acc, matGet m i i with
        | some a, .num q => some (qAdd a q)
        | _, _ => none)
      (some (0 : ℚ)) with
  | some t => t == 0
  | none => false

/-- The value returned by `skbio.DistanceMatrix`: the validated float matrix
and its id list (a single list serving as both row and column labels). -/
structure DistanceMatrix where
  ids : List String
  data : List (List FVal)
deriving DecidableEq, Repr

/-- Model of the `skbio.DistanceMatrix(data, ids)` constructor: conversion
followed by validation, with the skbio error messages. -/
def skbio_DistanceMatrix (rawData : List (List Cell)) (ids : List String) :
    Except String DistanceMatrix :=
  match cellsToFloats rawData with
  | none => .error "could not convert string to float"
  | some data =>
    let n := ids.length
    if data.length = n ∧ data.all (fun r => r.length = n) then
      if n = 0 then .error "Data must be at least 1x1 in size."
      else if ids.Nodup then
        if isSymmetricB data n then
          if traceIsZero data n then .ok ⟨ids, data⟩
          else .error "Data must be hollow (i.e., the diagonal can only contain zeros)."
        else .error "Data must be symmetric and cannot contain NaNs."
      else .error "IDs must be unique."
    else .error "Data must be square (i.e., have the same number of rows and columns)."

/-! ## Orchestrator (`compare_seqs`, skani.py lines 143–242)

The filesystem is modelled as an association list from paths to file contents
(newer entries shadow older ones); `tempfile.TemporaryDirectory()` is a caller
-chosen fresh directory path whose scope guard removes, on every exit path,
all paths under it.  The fifteen keyword parameters are gathered into
`skani_args` from `locals()` minus `genomes` (skani.py lines 203–211), so
every recognized key is present.  There is no check between the recursive
glob and the external invocation: the manifest is written (possibly empty) and
the process is run unconditionally. -/

/-- The fifteen keyword parameters of `compare_seqs` (skani.py lines 145–159).
The two float parameters are carried as `PyVal`s since only their `str()` form
is observed. -/
structure CompareSeqsParams where
  threads : Int
  min_af : PyVal
  compression : Int
  marker_c : Int
  screen : PyVal
  ci : Bool
  detailed : Bool
  diagonal : Bool
  sparse : Bool
  full_matrix : Bool
  median : Bool
  no_learned_ani : Bool
  robust : Bool
  faster_small : Bool
  preset : Option String
deriving DecidableEq, Repr

/-- The documented defaults of `compare_seqs` (skani.py lines 145–159). -/
def defaultParams : CompareSeqsParams where
  threads := 3
  min_af := pyFloat "15.0"
  compression := 125
  marker_c := 1000
  screen := pyFloat "80.0"
  ci := false
  detailed := false
  diagonal := false
  sparse := false
  full_matrix := true
  median := false
  no_learned_ani := false
  robust := false
  faster_small := false
  preset := none

/-- The fifteen recognized `skani_args` keys, every one of which
`compare_seqs` puts into the dict. -/
def recognizedKeys : List String :=
  ["threads", "min_af", "compression", "marker_c", "screen",
   "ci", "detailed", "diagonal", "sparse", "full_matrix", "median",
   "no_learned_ani", "robust", "faster_small", "preset"]

/-- skani.py lines 203–211: the `skani_args` dict built from `locals()` with
`genomes` removed — exactly the fifteen parameters, under their parameter
names. -/
def skani_args_of (p : CompareSeqsParams) : SkaniArgs := fun k =>
  if k = "threads" then some (pyInt p.threads)
  else if k = "min_af" then some p.min_af
  else if k = "compression" then some (pyInt p.compression)
  else if k = "marker_c" then some (pyInt p.marker_c)
  else if k = "screen" then some p.screen
  else if k = "ci" then some (pyBool p.ci)
  else if k = "detailed" then some (pyBool p.detailed)
  else if k = "diagonal" then some (pyBool p.diagonal)
  else if k = "sparse" then some (pyBool p.sparse)
  else if k = "full_matrix" then some (pyBool p.full_matrix)
  else if k = "median" then some (pyBool p.median)
  else if k = "no_learned_ani" then some (pyBool p.no_learned_ani)
  else if k = "robust" then some (pyBool p.robust)
  else if k = "faster_small" then some (pyBool p.faster_small)
  else if k = "preset" then
    some (match p.preset with
          | some s => pyStrVal s
          | none => pyNone)
  else none

/-- A filesystem: association list from paths to (tab-separated) contents;
newer entries shadow older ones. -/
structure FileSystem where
  files : List (String × TsvFile)
deriving DecidableEq, Repr

/-- Write (create or overwrite) a file. -/
def writeFile (fs : FileSystem) (p : String) (content : TsvFile) : FileSystem :=
  ⟨(p, content) :: fs.files⟩

/-- Whether `a` is a prefix of `b`, by characters (kernel-reducible). -/
def strIsPrefixOf (a b : String) : Bool := List.isPrefixOf a.data b.data

/-- Whether `a` is a suffix of `b`, by characters. -/
def strIsSuffixOf (a b : String) : Bool := List.isSuffixOf a.data b.data

/-- Whether path `p` lies strictly under directory `dir`. -/
def isUnderDir (dir p : String) : Bool := strIsPrefixOf (dir ++ "/") p

/-- The scope exit of `tempfile.TemporaryDirectory()`: every path under the
temporary directory is removed, on every exit path. -/
def cleanupTempDir (tempDir : String) (fs : FileSystem) : FileSystem :=
  ⟨fs.files.filter (fun pc => ¬ isUnderDir tempDir pc.1)⟩

/-- skani.py line 219: `glob.glob(str(genomes.path / "**" / "*.fasta"),
recursive=True)` — every path under the collection's root ending in
`.fasta`. -/
def globFasta (fs : FileSystem) (root : String) : List String :=
  ((fs.files.map Prod.fst).filter
    (fun p => isUnderDir root p && strIsSuffixOf ".fasta" p)).dedup

/-- The exceptions `compare_seqs` can raise: the wrapping `RuntimeError`
around a failed invocation, a propagated parse failure, and a propagated
`skbio` constructor failure. -/
inductive SkaniError
  | runtime (msg : String)
  | parse (e : MatrixErr)
  | skbioError (msg : String)
deriving DecidableEq, Repr

/-- Observable outcome of one `compare_seqs` call: the returned value or
raised exception, the final filesystem, and the commands passed to the
process runner. -/
structure CallResult where
  result : Except SkaniError DistanceMatrix
  fs : FileSystem
  runnerCalls : List (List String)
deriving DecidableEq, Repr

/-- The body of the `with tempfile.TemporaryDirectory()` block of
`compare_seqs` (skani.py lines 214–242): write the manifest of globbed fasta
paths, build the command, run it (wrapping failures), parse the output file,
construct the `DistanceMatrix`. -/
def compare_seqs_body (fs : FileSystem) (genomesPath : String)
    (p : CompareSeqsParams) (tempDir : String) (ext : ExtResult) : CallResult :=
  let list_file := tempDir ++ "/" ++ "genome_list.txt"
  let fastaPaths := globFasta fs genomesPath
  let fs1 := writeFile fs list_file (fastaPaths.map (fun q => [q]))
  let output_file := tempDir ++ "/" ++ "skani_output.tsv"
  let cmd := _construct_triangle_cmd list_file output_file (skani_args_of p)
  match _run_skani cmd ext with
  | .error e => ⟨.error (.runtime (wrapRunMsg cmd e)), fs1, [cmd]⟩
  | .ok _ =>
    let fs2 := writeFile fs1 output_file ext.outputLines
    match _process_skani_matrix ext.outputLines with
    | .error e => ⟨.error (.parse e), fs2, [cmd]⟩
    | .ok df =>
      match skbio_DistanceMatrix df.values df.index with
      | .error m => ⟨.error (.skbioError m), fs2, [cmd]⟩
      | .ok dm => ⟨.ok dm, fs2, [cmd]⟩

/-- skani.py lines 143–242, `compare_seqs`: the body inside the temporary
directory scope, whose guard removes everything under `tempDir` whether the
body returns or raises. -/
def compare_seqs (fs : FileSystem) (genomesPath : String)
    (p : CompareSeqsParams) (tempDir : String) (ext : ExtResult) : CallResult :=
  let r := compare_seqs_body fs genomesPath p tempDir ext
  { r with fs := cleanupTempDir tempDir r.fs }

/-- A concrete two-genome collection used by witnesses. -/
def exFs : FileSystem := ⟨[("gen/a.fasta", [["s"]]), ("gen/b.fasta", [["s"]])]⟩

/-- A concrete well-formed skani output file used by witnesses. -/
def exOut : TsvFile :=
  [["2"], ["gen/a.fasta", "0", "95.5"], ["gen/b.fasta", "95.5", "0"]]

/-- A successful external run producing `exOut`. -/
def exExt : ExtResult := ⟨0, "", "", exOut⟩

/-- The distance matrix `exOut` parses and validates to. -/
def exDm : DistanceMatrix :=
  ⟨["a", "b"],
   [[.num (decVal 0 0), .num (decVal 955 (-1))],
    [.num (decVal 955 (-1)), .num (decVal 0 0)]]⟩

/-- `sub` occurs as a contiguous substring of `s`. -/
def strContains (s sub : String) : Prop := ∃ x y, s = x ++ sub ++ y

/-- The command `compare_seqs` hands the process runner: built over the two
temporary paths inside `tempDir` from the full option mapping. -/
def builtCmd (tempDir : String) (p : CompareSeqsParams) : List String :=
  _construct_triangle_cmd (tempDir ++ "/" ++ "genome_list.txt")
    (tempDir ++ "/" ++ "skani_output.tsv") (skani_args_of p)

/-- A concrete options mapping used by witnesses: only `threads` (value 4) and
`ci` (true) present. -/
def c3args : SkaniArgs := fun k =>
  if k = "threads" then some (pyInt 4)
  else if k = "ci" then some (pyBool true)
  else none

/-! ## Helper lemmas -/

theorem foldl_append_flatten {α β : Type} (g : α → List β) :
    ∀ (l : List α) (acc : List β),
      l.foldl (fun cmd x => cmd ++ g x) acc = acc ++ (l.map g).flatten := by
  intro l
  induction l with
  | nil => intro acc; simp
  | cons x xs ih => intro acc; simp [ih]

theorem valueParamTokens_eq (skani_args : SkaniArgs) :
    valueParamTokens skani_args = (param_with_values.map (valueTokensFor skani_args)).flatten := by
  have h := foldl_append_flatten (valueTokensFor skani_args) param_with_values []
  simp only [List.nil_append] at h
  rw [valueParamTokens, ← h]
  apply List.foldl_ext
  intro cmd pf _
  cases hv : skani_args pf.1 <;> simp [valueTokensFor, hv]

theorem boolFlagTokens_eq (skani_args : SkaniArgs) :
    boolFlagTokens skani_args = (boolean_flags.map (boolTokensFor skani_args)).flatten := by
  have h := foldl_append_flatten (boolTokensFor skani_args) boolean_flags []
  simp only [List.nil_append] at h
  rw [boolFlagTokens, ← h]
  apply List.foldl_ext
  intro cmd pf _
  cases hv : skani_args pf.1 with
  | none => simp [boolTokensFor, flagOn, hv]
  | some v => cases hb : v.truthy <;> simp [boolTokensFor, flagOn, hv, hb]

theorem boolFlagTokens_filter (skani_args : SkaniArgs) :
    boolFlagTokens skani_args =
      (boolean_flags.filter (fun pf => flagOn skani_args pf.1)).map Prod.snd := by
  rw [boolFlagTokens_eq]
  have h : ∀ (l : List (String × String)),
      (l.map (boolTokensFor skani_args)).flatten =
        (l.filter (fun pf => flagOn skani_args pf.1)).map Prod.snd := by
    intro l
    induction l with
    | nil => simp
    | cons pf rest ih =>
      cases hon : flagOn skani_args pf.1 <;>
        simp [boolTokensFor, hon, ih]
  exact h boolean_flags

theorem bool_flag_snd_injective :
    ∀ pf ∈ boolean_flags, ∀ pf' ∈ boolean_flags, pf.2 = pf'.2 → pf = pf' := by
  decide

theorem bool_flag_snd_count :
    ∀ pf ∈ boolean_flags, (boolean_flags.map Prod.snd).count pf.2 = 1 := by
  decide

theorem read_csv_rows_uniform (first : List String) (rest : List (List String))
    (huniform : ∀ r ∈ first :: rest, r.length = first.length) :
    read_csv_rows (first :: rest) = .ok
      { index := (first :: rest).map (fun r => r.headD "")
        columns := (List.range (first.length - 1)).map natToStr
        values := ((first :: rest).map List.tail).map (fun row =>
          (List.range (first.length - 1)).map (fun j =>
            tokenCell (colNumeric ((first :: rest).map List.tail) j) (row.getD j ""))) } := by
  have hfind : (first :: rest).find? (fun r => decide (first.length < r.length)) = none := by
    apply List.find?_eq_none.mpr
    intro r hr
    simp [huniform r hr]
  have hpad : ∀ r ∈ first :: rest,
      r ++ List.replicate (first.length - r.length) "" = r := by
    intro r hr
    rw [huniform r hr, Nat.sub_self, List.replicate_zero, List.append_nil]
  simp only [read_csv_rows]
  rw [hfind]
  rw [List.map_congr_left hpad, List.map_id']

theorem filter_nonblank_of_shape (rows : List (String × List String))
    (hsq : ∀ pr ∈ rows, pr.2 ≠ []) :
    (rows.map (fun pr => pr.1 :: pr.2)).filter (fun r => r ≠ [""]) =
      rows.map (fun pr => pr.1 :: pr.2) := by
  apply List.filter_eq_self.mpr
  intro a ha
  obtain ⟨pr, hpr, rfl⟩ := List.mem_map.mp ha
  simp only [decide_eq_true_iff]
  intro hcontra
  have h2 : pr.2 = [] := (List.cons.injEq _ _ _ _ ▸ hcontra).2
  exact hsq pr hpr h2

theorem process_skani_matrix_ok (header : List String)
    (rows : List (String × List String))
    (hne : rows ≠ [])
    (hsq : ∀ pr ∈ rows, pr.2.length = rows.length) :
    _process_skani_matrix (header :: rows.map (fun pr => pr.1 :: pr.2)) = .ok
      { index := rows.map (fun pr => pathStem pr.1)
        columns := rows.map (fun pr => pathStem pr.1)
        values := (rows.map (fun pr => pr.2)).map (fun row =>
          (List.range rows.length).map (fun j =>
            tokenCell (colNumeric (rows.map (fun pr => pr.2)) j) (row.getD j ""))) } := by
  obtain ⟨r0, rs, rfl⟩ : ∃ r0 rs, rows = r0 :: rs := by
    cases rows with
    | nil => exact absurd rfl hne
    | cons a l => exact ⟨a, l, rfl⟩
  have hne2 : ∀ pr ∈ r0 :: rs, pr.2 ≠ [] := by
    intro pr hpr h
    have hl := hsq pr hpr
    rw [h] at hl
    simp at hl
  have hmapcons : (r0 :: rs).map (fun pr => pr.1 :: pr.2)
      = (r0.1 :: r0.2) :: rs.map (fun pr => pr.1 :: pr.2) := rfl
  have huniform : ∀ r ∈ (r0.1 :: r0.2) :: rs.map (fun pr => pr.1 :: pr.2),
      r.length = (r0.1 :: r0.2).length := by
    intro r hr
    rw [← hmapcons] at hr
    obtain ⟨pr, hpr, rfl⟩ := List.mem_map.mp hr
    simp [hsq pr hpr, hsq r0 (List.mem_cons_self r0 rs)]
  have hread : read_csv (header :: (r0 :: rs).map (fun pr => pr.1 :: pr.2)) =
      read_csv_rows ((r0.1 :: r0.2) :: rs.map (fun pr => pr.1 :: pr.2)) := by
    rw [read_csv]
    congr 1
    show ((r0 :: rs).map (fun pr => pr.1 :: pr.2)).filter (fun r => r ≠ [""]) = _
    rw [filter_nonblank_of_shape _ hne2, hmapcons]
  rw [_process_skani_matrix, hread, read_csv_rows_uniform _ _ huniform]
  have hidx : (((r0.1 :: r0.2) :: rs.map (fun pr => pr.1 :: pr.2)).map
        (fun r => r.headD "")).map pathStem
      = (r0 :: rs).map (fun pr => pathStem pr.1) := by
    rw [← hmapcons, List.map_map, List.map_map]
    rfl
  have hvals : ((r0.1 :: r0.2) :: rs.map (fun pr => pr.1 :: pr.2)).map List.tail
      = (r0 :: rs).map (fun pr => pr.2) := by
    rw [← hmapcons, List.map_map]
    rfl
  have hexp : (r0.1 :: r0.2).length - 1 = (r0 :: rs).length := by
    simp [hsq r0 (List.mem_cons_self r0 rs)]
  simp only [hidx, hvals, hexp]
  have hcols : ((List.range (r0 :: rs).length).map natToStr).length
      = ((r0 :: rs).map (fun pr => pathStem pr.1)).length := by
    simp
  rw [if_pos hcols]

theorem skbio_DistanceMatrix_ok (raw : List (List Cell)) (ids : List String)
    (dm : DistanceMatrix) (h : skbio_DistanceMatrix raw ids = .ok dm) :
    dm.ids = ids
    ∧ cellsToFloats raw = some dm.data
    ∧ dm.data.length = dm.ids.length
    ∧ (∀ row ∈ dm.data, row.length = dm.ids.length)
    ∧ 0 < dm.ids.length
    ∧ dm.ids.Nodup
    ∧ isSymmetricB dm.data dm.ids.length = true
    ∧ traceIsZero dm.data dm.ids.length = true := by
  rw [skbio_DistanceMatrix] at h
  cases hc : cellsToFloats raw with
  | none => rw [hc] at h; exact absurd h (by simp)
  | some data =>
    rw [hc] at h
    simp only [] at h
    split_ifs at h with h1 h2 h3 h4 h5
    · simp only [Except.ok.injEq] at h
      subst h
      refine ⟨rfl, by simp [hc], h1.1, ?_, Nat.pos_of_ne_zero h2, h3, h4, h5⟩
      intro row hrow
      have := List.all_eq_true.mp h1.2 row hrow
      simpa using this

theorem process_skani_matrix_columns_eq_index (file : TsvFile) (df : DataFrame)
    (h : _process_skani_matrix file = .ok df) : df.columns = df.index := by
  rw [_process_skani_matrix] at h
  split at h
  · exact absurd h (by simp)
  · dsimp only [] at h
    split at h
    · simp only [Except.ok.injEq] at h
      subst h
      rfl
    · exact absurd h (by simp)

theorem isSymmetricB_no_nan (m : List (List FVal)) (n : Nat)
    (h : isSymmetricB m n = true) :
    ∀ i j, i < n → j < n → matGet m i j ≠ FVal.nan := by
  intro i j hi hj hnan
  rw [isSymmetricB, List.all_eq_true] at h
  have hi' := h i (List.mem_range.mpr hi)
  rw [List.all_eq_true] at hi'
  have hij := hi' j (List.mem_range.mpr hj)
  rw [hnan] at hij
  cases matGet m j i <;> simp [fvalEq] at hij

theorem compare_seqs_result_eq (fs : FileSystem) (gp : String)
    (p : CompareSeqsParams) (td : String) (ext : ExtResult) :
    (compare_seqs fs gp p td ext).result = (compare_seqs_body fs gp p td ext).result := rfl

theorem isUnderDir_append (td s : String) : isUnderDir td (td ++ "/" ++ s) = true := by
  rw [isUnderDir, strIsPrefixOf, String.data_append, List.isPrefixOf_iff_prefix]
  exact List.prefix_append _ _

theorem cleanup_writeFile_under (td p : String) (c : TsvFile) (g : FileSystem)
    (hp : isUnderDir td p = true) :
    cleanupTempDir td (writeFile g p c) = cleanupTempDir td g := by
  rw [cleanupTempDir, cleanupTempDir, writeFile]
  simp [List.filter_cons, hp]

theorem cleanup_fresh (td : String) (fs : FileSystem)
    (hfresh : ∀ pc ∈ fs.files, isUnderDir td pc.1 = false) :
    cleanupTempDir td fs = fs := by
  rw [cleanupTempDir]
  cases fs with
  | mk files =>
    simp only [FileSystem.mk.injEq]
    apply List.filter_eq_self.mpr
    intro pc hpc
    simp [hfresh pc hpc]

theorem cleanup_body_fs (fs : FileSystem) (gp : String) (p : CompareSeqsParams)
    (td : String) (ext : ExtResult)
    (hfresh : ∀ pc ∈ fs.files, isUnderDir td pc.1 = false) :
    cleanupTempDir td (compare_seqs_body fs gp p td ext).fs = fs := by
  rw [compare_seqs_body]
  split
  · show cleanupTempDir td (writeFile fs (td ++ "/" ++ "genome_list.txt") _) = fs
    rw [cleanup_writeFile_under _ _ _ _ (isUnderDir_append td _),
      cleanup_fresh td fs hfresh]
  · split
    · show cleanupTempDir td
        (writeFile (writeFile fs (td ++ "/" ++ "genome_list.txt") _)
          (td ++ "/" ++ "skani_output.tsv") _) = fs
      rw [cleanup_writeFile_under _ _ _ _ (isUnderDir_append td _),
        cleanup_writeFile_under _ _ _ _ (isUnderDir_append td _),
        cleanup_fresh td fs hfresh]
    · split
      · show cleanupTempDir td
          (writeFile (writeFile fs (td ++ "/" ++ "genome_list.txt") _)
            (td ++ "/" ++ "skani_output.tsv") _) = fs
        rw [cleanup_writeFile_under _ _ _ _ (isUnderDir_append td _),
          cleanup_writeFile_under _ _ _ _ (isUnderDir_append td _),
          cleanup_fresh td fs hfresh]
      · show cleanupTempDir td
          (writeFile (writeFile fs (td ++ "/" ++ "genome_list.txt") _)
            (td ++ "/" ++ "skani_output.tsv") _) = fs
        rw [cleanup_writeFile_under _ _ _ _ (isUnderDir_append td _),
          cleanup_writeFile_under _ _ _ _ (isUnderDir_append td _),
          cleanup_fresh td fs hfresh]

/-! ## Claim theorems -/

/-- C1: the spec (and the repository's own test `test_compare_seqs_no_fasta_files`)
requires `compare_seqs` to raise a `RuntimeError` ("No FASTA files found")
before the external tool is invoked when the input collection contains no
FASTA files.  The code has no such check: on a collection whose only file is
not a FASTA file, the recursive glob finds nothing, yet the process runner is
still invoked (with an empty manifest), so the required error is never raised
before the external call. -/
theorem compare_seqs_empty_collection_still_runs_skani :
    globFasta ⟨[("gen/notes.txt", [["n"]])]⟩ "gen" = []
    ∧ (compare_seqs ⟨[("gen/notes.txt", [["n"]])]⟩ "gen" defaultParams
        "/tmp/skani" ⟨0, "", "", []⟩).runnerCalls =
      [_construct_triangle_cmd ("/tmp/skani" ++ "/" ++ "genome_list.txt")
        ("/tmp/skani" ++ "/" ++ "skani_output.tsv") (skani_args_of defaultParams)] := by
  decide

/-- C2: `_construct_triangle_cmd` is a deterministic pure function of the
manifest path, the output path and the options mapping; its output is the
fixed head `["skani", "triangle", "-v", "--distance", "-l", manifest, "-o",
output]` followed by the value-bearing options in declaration order (threads,
min_af, compression, marker_c, screen), the boolean flags in declaration
order (ci, detailed, diagonal, sparse, full_matrix, median, no_learned_ani,
robust, faster_small), and the preset flag last; extensionally identical
inputs yield identical vectors. -/
theorem construct_triangle_cmd_canonical_order (fl out : String) (args : SkaniArgs) :
    (_construct_triangle_cmd fl out args =
      ["skani", "triangle", "-v", "--distance", "-l", fl, "-o", out]
        ++ valueTokensFor args ("threads", "-t")
        ++ valueTokensFor args ("min_af", "--min-af")
        ++ valueTokensFor args ("compression", "-c")
        ++ valueTokensFor args ("marker_c", "-m")
        ++ valueTokensFor args ("screen", "-s")
        ++ boolTokensFor args ("ci", "--ci")
        ++ boolTokensFor args ("detailed", "--detailed")
        ++ boolTokensFor args ("diagonal", "--diagonal")
        ++ boolTokensFor args ("sparse", "--sparse")
        ++ boolTokensFor args ("full_matrix", "--full-matrix")
        ++ boolTokensFor args ("median", "--median")
        ++ boolTokensFor args ("no_learned_ani", "--no-learned-ani")
        ++ boolTokensFor args ("robust", "--robust")
        ++ boolTokensFor args ("faster_small", "--faster-small")
        ++ presetTokens args)
    ∧ ∀ (fl' out' : String) (args' : SkaniArgs),
        fl = fl' → out = out' → (∀ k, args k = args' k) →
        _construct_triangle_cmd fl out args = _construct_triangle_cmd fl' out' args' := by
  constructor
  · rw [_construct_triangle_cmd, valueParamTokens_eq, boolFlagTokens_eq]
    simp [param_with_values, boolean_flags]
  · intro fl' out' args' hfl hout hargs
    rw [hfl, hout, funext hargs]

/-- Witness for C2 at concrete inputs: the default option set of
`compare_seqs` yields exactly the expected canonical vector. -/
theorem construct_triangle_cmd_canonical_order_witness :
    _construct_triangle_cmd "L" "O" (skani_args_of defaultParams) =
      ["skani", "triangle", "-v", "--distance", "-l", "L", "-o", "O",
       "-t", "3", "--min-af", "15.0", "-c", "125", "-m", "1000", "-s", "80.0",
       "--full-matrix"]
    ∧ _construct_triangle_cmd "L" "O" (skani_args_of defaultParams) =
      _construct_triangle_cmd "L" "O" (skani_args_of defaultParams) := by
  refine ⟨?_, ?_⟩
  · rw [(construct_triangle_cmd_canonical_order "L" "O" (skani_args_of defaultParams)).1]
    decide
  · exact (construct_triangle_cmd_canonical_order "L" "O"
      (skani_args_of defaultParams)).2 "L" "O" _ rfl rfl (fun _ => rfl)

/-- C3: a recognized boolean flag that is absent or falsy contributes no token
to the boolean-flag segment of the built command; one that is present and
truthy contributes its bare flag token exactly once; every token of the
boolean-flag segment is itself one of the recognized flag tokens (never a
value), and the preset segment holds only `--`-prefixed flag tokens; a
recognized value-bearing option absent from the mapping contributes no
token at all (the whole value segment is just the per-option contributions,
with no default filled in). -/
theorem bool_flags_and_absent_options (args : SkaniArgs) :
    (∀ pf ∈ boolean_flags, flagOn args pf.1 = false → pf.2 ∉ boolFlagTokens args)
    ∧ (∀ pf ∈ boolean_flags, flagOn args pf.1 = true → (boolFlagTokens args).count pf.2 = 1)
    ∧ (∀ t ∈ boolFlagTokens args, t ∈ boolean_flags.map Prod.snd)
    ∧ (∀ t ∈ presetTokens args, strIsPrefixOf "--" t = true)
    ∧ (∀ pf ∈ param_with_values, args pf.1 = none → valueTokensFor args pf = [])
    ∧ valueParamTokens args = (param_with_values.map (valueTokensFor args)).flatten := by
  refine ⟨?_, ?_, ?_, ?_, ?_, valueParamTokens_eq args⟩
  · intro pf hpf hoff hmem
    rw [boolFlagTokens_filter] at hmem
    obtain ⟨pf', hpf', hsnd⟩ := List.mem_map.mp hmem
    have hpf'mem : pf' ∈ boolean_flags := (List.mem_filter.mp hpf').1
    have hon : flagOn args pf'.1 = true := by
      have := (List.mem_filter.mp hpf').2
      simpa using this
    have : pf' = pf := bool_flag_snd_injective pf' hpf'mem pf hpf hsnd
    rw [this] at hon
    rw [hon] at hoff
    exact Bool.noConfusion hoff
  · intro pf hpf hon
    rw [boolFlagTokens_filter]
    have hmem : pf.2 ∈ (boolean_flags.filter (fun pf => flagOn args pf.1)).map Prod.snd :=
      List.mem_map.mpr ⟨pf, List.mem_filter.mpr ⟨hpf, hon⟩, rfl⟩
    have hle : ((boolean_flags.filter (fun pf => flagOn args pf.1)).map Prod.snd).count pf.2
        ≤ (boolean_flags.map Prod.snd).count pf.2 :=
      ((List.filter_sublist boolean_flags).map Prod.snd).count_le pf.2
    have h1 : (boolean_flags.map Prod.snd).count pf.2 = 1 := bool_flag_snd_count pf hpf
    have hge : 1 ≤ ((boolean_flags.filter (fun pf => flagOn args pf.1)).map Prod.snd).count pf.2 :=
      List.count_pos_iff.mpr hmem
    omega
  · intro t ht
    rw [boolFlagTokens_filter] at ht
    obtain ⟨pf', hpf', hsnd⟩ := List.mem_map.mp ht
    exact List.mem_map.mpr ⟨pf', List.mem_of_mem_filter hpf', hsnd⟩
  · intro t ht
    rw [presetTokens] at ht
    cases hv : args "preset" with
    | none => rw [hv] at ht; simp at ht
    | some v =>
      rw [hv] at ht
      simp only at ht
      cases hb : v.truthy with
      | false => simp [hb] at ht
      | true =>
        rw [hb] at ht
        simp only [if_true, List.mem_singleton] at ht
        rw [ht, strIsPrefixOf, String.data_append, List.isPrefixOf_iff_prefix]
        exact List.prefix_append _ _
  · intro pf _ hnone
    rw [valueTokensFor, hnone]

/-- Witness for C3 at a concrete mapping (only `ci` truthy, only `threads`
among the value-bearing options present). -/
theorem bool_flags_and_absent_options_witness :
    ("--detailed" ∉ boolFlagTokens c3args)
    ∧ (boolFlagTokens c3args).count "--ci" = 1
    ∧ valueTokensFor c3args ("min_af", "--min-af") = [] := by
  refine ⟨?_, ?_, ?_⟩
  · exact (bool_flags_and_absent_options c3args).1 ("detailed", "--detailed")
      (by decide) (by decide)
  · exact (bool_flags_and_absent_options c3args).2.1 ("ci", "--ci")
      (by decide) (by decide)
  · exact (bool_flags_and_absent_options c3args).2.2.2.2.1 ("min_af", "--min-af")
      (by decide) (by decide)

/-- C10: `compare_seqs` always hands the command builder the complete option
set: every one of the fifteen recognized keys is present in the mapping it
builds, so the value segment of the built command is always exactly the five
value-bearing flags with their (default or supplied) values, and whenever
`full_matrix` is true — as it is by default — the built command contains
`--full-matrix`.  Absent-option omission can never occur through this entry
point. -/
theorem compare_seqs_full_option_set (p : CompareSeqsParams) (fl out : String) :
    (∀ k ∈ recognizedKeys, (skani_args_of p k).isSome = true)
    ∧ valueParamTokens (skani_args_of p) =
        ["-t", intToStr p.threads, "--min-af", p.min_af.pyStr,
         "-c", intToStr p.compression, "-m", intToStr p.marker_c,
         "-s", p.screen.pyStr]
    ∧ (p.full_matrix = true →
        "--full-matrix" ∈ _construct_triangle_cmd fl out (skani_args_of p)) := by
  refine ⟨?_, ?_, ?_⟩
  · intro k hk
    fin_cases hk <;> rfl
  · rfl
  · intro hfm
    rw [_construct_triangle_cmd]
    have hmem : "--full-matrix" ∈ boolFlagTokens (skani_args_of p) := by
      rw [boolFlagTokens_filter]
      refine List.mem_map.mpr ⟨("full_matrix", "--full-matrix"), ?_, rfl⟩
      refine List.mem_filter.mpr ⟨by decide, ?_⟩
      show flagOn (skani_args_of p) "full_matrix" = true
      rw [flagOn]
      show (pyBool p.full_matrix).truthy = true
      rw [pyBool, hfm]
    simp [hmem]

/-- Witness for C10 at the default parameters. -/
theorem compare_seqs_full_option_set_witness :
    "--full-matrix" ∈ _construct_triangle_cmd "L" "O" (skani_args_of defaultParams) :=
  (compare_seqs_full_option_set defaultParams "L" "O").2.2 rfl

/-- C4: on a zero exit code `_run_skani` returns normally without touching any
output; on a non-zero exit code it raises an error whose message contains the
exit code, the space-joined command, and — when non-empty — the captured
stdout and stderr under the labeled `stdout:`/`stderr:` headers; `compare_seqs`
re-raises any such failure as a `RuntimeError` whose message contains the
original failure text and the full command line. -/
theorem run_skani_error_reporting (cmd : List String) (res : ExtResult) :
    (res.exitCode = 0 → _run_skani cmd res = .ok ())
    ∧ (res.exitCode ≠ 0 →
        _run_skani cmd res = .error (skaniFailMsg cmd res)
        ∧ strContains (skaniFailMsg cmd res) (intToStr res.exitCode)
        ∧ strContains (skaniFailMsg cmd res) (joinWith " " cmd)
        ∧ (res.stdout ≠ "" →
            strContains (skaniFailMsg cmd res) ("stdout:\n" ++ res.stdout))
        ∧ (res.stderr ≠ "" →
            strContains (skaniFailMsg cmd res) ("stderr:\n" ++ res.stderr)))
    ∧ (∀ (orig : String),
        strContains (wrapRunMsg cmd orig) orig
        ∧ strContains (wrapRunMsg cmd orig) (joinWith " " cmd))
    ∧ (∀ (fs : FileSystem) (gp td : String) (p : CompareSeqsParams),
        res.exitCode ≠ 0 →
        (compare_seqs fs gp p td res).result =
          .error (.runtime (wrapRunMsg (builtCmd td p) (skaniFailMsg (builtCmd td p) res)))) := by
  refine ⟨?_, ?_, ?_, ?_⟩
  · intro hz
    rw [_run_skani, if_pos hz]
  · intro hz
    refine ⟨by rw [_run_skani, if_neg hz], ?_, ?_, ?_, ?_⟩
    · exact ⟨"Skani failed with exit code ",
        ".\n" ++ "Command: " ++ joinWith " " cmd ++ "\n"
          ++ (if res.stdout ≠ "" then "stdout:\n" ++ res.stdout ++ "\n" else "")
          ++ (if res.stderr ≠ "" then "stderr:\n" ++ res.stderr else ""),
        by simp only [skaniFailMsg, String.append_assoc]⟩
    · exact ⟨"Skani failed with exit code " ++ intToStr res.exitCode ++ ".\n" ++ "Command: ",
        "\n" ++ (if res.stdout ≠ "" then "stdout:\n" ++ res.stdout ++ "\n" else "")
          ++ (if res.stderr ≠ "" then "stderr:\n" ++ res.stderr else ""),
        by simp only [skaniFailMsg, String.append_assoc]⟩
    · intro hso
      refine ⟨"Skani failed with exit code " ++ intToStr res.exitCode ++ ".\n"
          ++ "Command: " ++ joinWith " " cmd ++ "\n",
        "\n" ++ (if res.stderr ≠ "" then "stderr:\n" ++ res.stderr else ""), ?_⟩
      simp only [skaniFailMsg, if_pos hso, String.append_assoc]
    · intro hse
      refine ⟨"Skani failed with exit code " ++ intToStr res.exitCode ++ ".\n"
          ++ "Command: " ++ joinWith " " cmd ++ "\n"
          ++ (if res.stdout ≠ "" then "stdout:\n" ++ res.stdout ++ "\n" else ""),
        "", ?_⟩
      simp only [skaniFailMsg, if_pos hse, String.append_assoc, String.append_empty]
  · intro orig
    constructor
    · exact ⟨"Failed to run Skani comparison: ",
        "\n" ++ "Command: " ++ joinWith " " cmd,
        by simp only [wrapRunMsg, String.append_assoc]⟩
    · exact ⟨"Failed to run Skani comparison: " ++ orig ++ "\n" ++ "Command: ", "",
        by simp only [wrapRunMsg, String.append_assoc, String.append_empty]⟩
  · intro fs gp td p hz
    show (compare_seqs fs gp p td res).result = _
    rw [compare_seqs, compare_seqs_body]
    simp only [_run_skani, if_neg hz, builtCmd]

/-- C5: a well-formed matrix file — a header line followed by `N` lines, each
a genome path and `N` numeric fields — parses to an `N × N` matrix: the first
line is skipped, the row labels are the stems of the leading column in row
order, and the column labels equal the row labels. -/
theorem process_skani_matrix_roundtrip
    (header : List String) (rows : List (String × List String))
    (hne : rows ≠ [])
    (hsq : ∀ pr ∈ rows, pr.2.length = rows.length)
    (hnum : ∀ pr ∈ rows, ∀ t ∈ pr.2,
      isNAToken t = false ∧ (parseNumToken t).isSome = true)
    (hpath : ∀ pr ∈ rows, isNAToken pr.1 = false ∧ parseNumToken pr.1 = none) :
    ∃ df, _process_skani_matrix (header :: rows.map (fun pr => pr.1 :: pr.2)) = .ok df
      ∧ df.index = rows.map (fun pr => pathStem pr.1)
      ∧ df.columns = rows.map (fun pr => pathStem pr.1)
      ∧ df.values.length = rows.length
      ∧ (∀ row ∈ df.values, row.length = rows.length) := by
  rw [process_skani_matrix_ok header rows hne hsq]
  refine ⟨_, rfl, rfl, rfl, ?_, ?_⟩
  · simp
  · intro row hrow
    obtain ⟨r, _, rfl⟩ := List.mem_map.mp hrow
    simp

/-- Witness for C5 on a concrete two-genome file. -/
theorem process_skani_matrix_roundtrip_witness :
    ∃ df, _process_skani_matrix
        [["2"], ["d/g1.fasta", "0", "99.9"], ["d/g2.fasta", "99.9", "0"]] = .ok df
      ∧ df.index = ["g1", "g2"]
      ∧ df.columns = ["g1", "g2"]
      ∧ df.values.length = 2
      ∧ (∀ row ∈ df.values, row.length = 2) := by
  have h := process_skani_matrix_roundtrip ["2"]
    [("d/g1.fasta", ["0", "99.9"]), ("d/g2.fasta", ["99.9", "0"])]
    (by decide) (by decide) (by decide) (by decide)
  obtain ⟨df, h1, h2, h3, h4, h5⟩ := h
  exact ⟨df, h1, h2, h3, h4, h5⟩

/-- C6: a missing-value marker in an otherwise well-formed matrix file parses
to the not-a-number cell — never to zero, and without raising an error. -/
theorem process_skani_matrix_na_cell
    (header : List String) (rows : List (String × List String))
    (hne : rows ≠ [])
    (hsq : ∀ pr ∈ rows, pr.2.length = rows.length)
    (i j : Nat) (hi : i < rows.length) (hj : j < rows.length)
    (hNA : isNAToken ((rows.get ⟨i, hi⟩).2.getD j "") = true) :
    ∃ df, _process_skani_matrix (header :: rows.map (fun pr => pr.1 :: pr.2)) = .ok df
      ∧ (df.values.getD i []).getD j (Cell.obj "") = Cell.nan
      ∧ (df.values.getD i []).getD j (Cell.obj "") ≠ Cell.num 0 := by
  have hi2 : i < (rows.map (fun pr => pr.2)).length := by simpa using hi
  have hNA2 : isNAToken ((rows.get ⟨i, hi⟩).2.getD j "") = true := hNA
  simp only [List.get_eq_getElem, List.getD_eq_getElem?_getD] at hNA2
  have hcell : ((((rows.map (fun pr => pr.2)).map (fun row =>
        (List.range rows.length).map (fun j =>
          tokenCell (colNumeric (rows.map (fun pr => pr.2)) j)
            (row.getD j "")))).getD i []).getD j (Cell.obj ""))
      = tokenCell (colNumeric (rows.map (fun pr => pr.2)) j)
          ((rows.get ⟨i, hi⟩).2.getD j "") := by
    simp only [List.getD_eq_getElem?_getD, List.getElem?_map,
      List.getElem?_eq_getElem hi2, List.getElem?_range hj,
      Option.map_some', Option.getD_some, List.getElem_map,
      List.get_eq_getElem]
  refine ⟨_, process_skani_matrix_ok header rows hne hsq, ?_, ?_⟩
  · show ((((rows.map (fun pr => pr.2)).map (fun row =>
        (List.range rows.length).map (fun j =>
          tokenCell (colNumeric (rows.map (fun pr => pr.2)) j)
            (row.getD j "")))).getD i []).getD j (Cell.obj "")) = Cell.nan
    rw [hcell]
    simp [tokenCell, hNA2]
  · show ((((rows.map (fun pr => pr.2)).map (fun row =>
        (List.range rows.length).map (fun j =>
          tokenCell (colNumeric (rows.map (fun pr => pr.2)) j)
            (row.getD j "")))).getD i []).getD j (Cell.obj "")) ≠ Cell.num 0
    rw [hcell]
    simp [tokenCell, hNA2]

/-- Witness for C4: a process exiting 1 with stderr "boom" yields the error
with the code, the joined command and the labeled stderr block. -/
theorem run_skani_error_reporting_witness :
    _run_skani ["skani", "triangle"] ⟨1, "", "boom", []⟩ =
      .error (skaniFailMsg ["skani", "triangle"] ⟨1, "", "boom", []⟩)
    ∧ strContains (skaniFailMsg ["skani", "triangle"] ⟨1, "", "boom", []⟩) (intToStr 1)
    ∧ strContains (skaniFailMsg ["skani", "triangle"] ⟨1, "", "boom", []⟩)
        (joinWith " " ["skani", "triangle"])
    ∧ strContains (skaniFailMsg ["skani", "triangle"] ⟨1, "", "boom", []⟩)
        ("stderr:\n" ++ "boom") := by
  have h := (run_skani_error_reporting ["skani", "triangle"] ⟨1, "", "boom", []⟩).2.1
    (by decide)
  exact ⟨h.1, h.2.1, h.2.2.1, h.2.2.2.2 (by decide)⟩

/-- Witness for C6 on a concrete file with an `NA` marker. -/
theorem process_skani_matrix_na_cell_witness :
    ∃ df, _process_skani_matrix
        [["2"], ["d/g1.fasta", "0", "NA"], ["d/g2.fasta", "NA", "0"]] = .ok df
      ∧ (df.values.getD 0 []).getD 1 (Cell.obj "") = Cell.nan
      ∧ (df.values.getD 0 []).getD 1 (Cell.obj "") ≠ Cell.num 0 :=
  process_skani_matrix_na_cell ["2"]
    [("d/g1.fasta", ["0", "NA"]), ("d/g2.fasta", ["NA", "0"])]
    (by decide) (by decide) 0 1 (by decide) (by decide) (by decide)

/-- Counterexample to C7 as stated: a malformed file — its second data row has
the wrong column count (one value column instead of two) and its first data
row has a non-numeric token where a numeric value is expected — nevertheless
parses without error directly to a returned matrix (the short row is padded
with a missing value, the non-numeric token becomes a string cell). -/
theorem process_skani_matrix_malformed_counterexample :
    _process_skani_matrix [["2"], ["d/a.fasta", "0", "xyz"], ["d/b.fasta", "7"]] =
      .ok { index := ["a", "b"], columns := ["a", "b"],
            values := [[Cell.num 0, Cell.obj "xyz"],
                       [Cell.num 7, Cell.nan]] } := by
  decide

/-- C7 as amended: the parse step fails with the data layer's native
tokenizing error precisely when a data line has more fields than the first
data line, and fails with the `ValueError` of the label assignment when the
(uniform) table is not square; a data row with fewer columns than the first
is padded with missing values instead of failing, and a non-numeric token
parses to a string cell without raising. -/
theorem process_skani_matrix_malformed_errors (file : TsvFile)
    (first : List String) (rest : List (List String))
    (hrows : (file.drop 1).filter (fun r => r ≠ [""]) = first :: rest) :
    ((∃ r ∈ first :: rest, first.length < r.length) →
      ∃ saw, _process_skani_matrix file = .error (.pandas (.tokenizing first.length saw)))
    ∧ ((∀ r ∈ first :: rest, r.length = first.length) →
        first.length - 1 ≠ (first :: rest).length →
        _process_skani_matrix file = .error
          (.lengthMismatch (first.length - 1) (first :: rest).length)) := by
  constructor
  · rintro ⟨r, hr, hlt⟩
    have hfind : ((first :: rest).find?
        (fun r => decide (first.length < r.length))).isSome = true := by
      rw [List.find?_isSome]
      exact ⟨r, hr, by simpa using hlt⟩
    obtain ⟨bad, hbad⟩ := Option.isSome_iff_exists.mp hfind
    refine ⟨bad.length, ?_⟩
    rw [_process_skani_matrix, read_csv, hrows]
    simp only [read_csv_rows]
    rw [hbad]
  · intro huni hnsq
    rw [_process_skani_matrix, read_csv, hrows, read_csv_rows_uniform first rest huni]
    have hcond : ¬ (((List.range (first.length - 1)).map natToStr).length =
        (((first :: rest).map (fun r => r.headD "")).map pathStem).length) := by
      simpa using hnsq
    dsimp only []
    rw [if_neg hcond]
    simp

/-- Witness for C7's amended statement: a file whose second data row is longer
than the first fails with the tokenizing error. -/
theorem process_skani_matrix_malformed_errors_witness :
    ∃ saw, _process_skani_matrix [["h"], ["a", "1"], ["b", "1", "2"]] =
      .error (.pandas (.tokenizing 2 saw)) :=
  (process_skani_matrix_malformed_errors [["h"], ["a", "1"], ["b", "1", "2"]]
      ["a", "1"] [["b", "1", "2"]] (by decide)).1
    ⟨["b", "1", "2"], by decide, by decide⟩

/-- Counterexample to C8 as stated: a parsed matrix containing not-a-number
entries does not yield a structurally valid result — the `skbio`
constructor's symmetry check rejects NaN (NaN compares unequal to itself),
so `compare_seqs` raises instead of returning. -/
theorem compare_seqs_nan_counterexample :
    (compare_seqs exFs "gen" defaultParams "/tmp/skani"
        ⟨0, "", "", [["2"], ["gen/a.fasta", "0", "NA"], ["gen/b.fasta", "NA", "0"]]⟩).result =
      .error (.skbioError "Data must be symmetric and cannot contain NaNs.") := by
  decide

/-- C8 as amended: whenever `compare_seqs` returns, its result is a square
labeled matrix validated by the constructor — one id list (the stems of the
parsed output's leading column) serves as both row and column labels, the ids
are unique, the data is elementwise symmetric, NaN-free in range, and has a
zero-trace diagonal; but a parsed matrix containing not-a-number entries
makes the constructor raise rather than return. -/
theorem compare_seqs_ok_structurally_valid
    (fs : FileSystem) (gp : String) (p : CompareSeqsParams) (td : String)
    (ext : ExtResult) (dm : DistanceMatrix)
    (h : (compare_seqs fs gp p td ext).result = .ok dm) :
    (∃ df, _process_skani_matrix ext.outputLines = .ok df
      ∧ dm.ids = df.index ∧ df.columns = df.index)
    ∧ dm.data.length = dm.ids.length
    ∧ (∀ row ∈ dm.data, row.length = dm.ids.length)
    ∧ 0 < dm.ids.length
    ∧ dm.ids.Nodup
    ∧ isSymmetricB dm.data dm.ids.length = true
    ∧ traceIsZero dm.data dm.ids.length = true
    ∧ (∀ i j, i < dm.ids.length → j < dm.ids.length → matGet dm.data i j ≠ FVal.nan) := by
  rw [compare_seqs_result_eq, compare_seqs_body] at h
  split at h
  · exact absurd h (by simp)
  · split at h
    · exact absurd h (by simp)
    · rename_i df hdf
      split at h
      · exact absurd h (by simp)
      · rename_i dm' hdm'
        simp only [Except.ok.injEq] at h
        subst h
        obtain ⟨hids, _, hlen, hrows, hpos, hnodup, hsym, htr⟩ :=
          skbio_DistanceMatrix_ok df.values df.index dm' hdm'
        refine ⟨⟨df, hdf, hids, process_skani_matrix_columns_eq_index _ _ hdf⟩,
          hlen, hrows, hpos, hnodup, hsym, htr, isSymmetricB_no_nan _ _ hsym⟩

/-- Witness for C8's amended statement on a concrete successful run. -/
theorem compare_seqs_ok_structurally_valid_witness :
    exDm.data.length = exDm.ids.length
    ∧ isSymmetricB exDm.data exDm.ids.length = true
    ∧ traceIsZero exDm.data exDm.ids.length = true :=
  have h := compare_seqs_ok_structurally_valid exFs "gen" defaultParams
    "/tmp/skani" exExt exDm (by decide)
  ⟨h.2.1, h.2.2.2.2.2.1, h.2.2.2.2.2.2.1⟩

/-- C9: every `compare_seqs` call removes all the temporary filesystem state
it created — the manifest file and the tool's output file, both inside the
call's temporary directory — by the time the call returns or raises, on every
exit path: the final filesystem equals the initial one whenever the
temporary directory is fresh. -/
theorem compare_seqs_cleans_temp_state
    (fs : FileSystem) (gp : String) (p : CompareSeqsParams) (td : String)
    (ext : ExtResult)
    (hfresh : ∀ pc ∈ fs.files, isUnderDir td pc.1 = false) :
    (compare_seqs fs gp p td ext).fs = fs := by
  show cleanupTempDir td (compare_seqs_body fs gp p td ext).fs = fs
  exact cleanup_body_fs fs gp p td ext hfresh

/-- Witness for C9: a concrete call (succeeding) and a concrete failing call
both restore the filesystem. -/
theorem compare_seqs_cleans_temp_state_witness :
    (compare_seqs exFs "gen" defaultParams "/tmp/skani" exExt).fs = exFs
    ∧ (compare_seqs exFs "gen" defaultParams "/tmp/skani" ⟨1, "", "boom", []⟩).fs = exFs :=
  ⟨compare_seqs_cleans_temp_state exFs "gen" defaultParams "/tmp/skani" exExt (by decide),
   compare_seqs_cleans_temp_state exFs "gen" defaultParams "/tmp/skani" ⟨1, "", "boom", []⟩
     (by decide)⟩

end Q2Skani
